import Mathlib

/-
  Verification of the Portfolio_Server HTTP API (index.js) against its
  natural-language specification.

  The repository is an Express application over MongoDB.  The source file
  contains three variants of the server; the handlers modelled here are the
  ones the specification describes: the visitor-tracking middleware and the
  session-flush endpoint, the projects / coursework / contacts CRUD handlers,
  the resume-singleton handler, the admin gate, and the error envelopes.

  Modelling conventions (shallow embedding):
  * JSON scalar body values are modelled by `JsValue`; JavaScript truthiness
    (the source validates with `!x`) is `JsValue.truthy`.
  * `Number(x)` is modelled by `JsValue.toNumber : JsValue → Option Int`,
    `none` standing for NaN; NaN propagates through `addNum`.
  * A MongoDB collection is an association list keyed by a string
    (the ObjectId hex string, or the client IP for `visitors`).
    `findRec` is `findOne`, `updateRec` is `updateOne` with `$set`/`$inc`
    (first match, no upsert), `eraseRec` is `deleteOne`.  Insertion order of
    a collection is not modelled (new documents are consed on the front).
  * Timestamps (`new Date()`, `getTime()`) are a `Nat` parameter `now`.
  * A handler is a pure function from its request data and the relevant
    collection state to an outcome and the new collection state.  Storage
    failures, where a claim needs them, are an explicit `DbOutcome` input
    standing for the promise rejecting inside the handler's try block.
  * Response payload lists (collection listings) and their sort order are
    carried as-is or omitted where no claim depends on them.
-/

namespace Portfolio

/-! ## JavaScript string primitives

The JavaScript string operations the handlers use, defined over the
character list of a `String` so that concrete instances compute. -/

/-- The whitespace characters `String.prototype.trim` strips (the
WhiteSpace and LineTerminator characters relevant to this API's inputs). -/
def isJsWhitespace (c : Char) : Bool :=
  c = ' ' || c = Char.ofNat 9 || c = Char.ofNat 10 || c = Char.ofNat 11 ||
  c = Char.ofNat 12 || c = Char.ofNat 13 || c = Char.ofNat 0xA0 ||
  c = Char.ofNat 0xFEFF || c = Char.ofNat 0x2028 || c = Char.ofNat 0x2029

/-- `s.trim()`: strip leading and trailing whitespace. -/
def jsTrim (s : String) : String :=
  String.mk (((s.data.dropWhile isJsWhitespace).reverse.dropWhile
    isJsWhitespace).reverse)

/-- `s.startsWith(p)`. -/
def jsStartsWith (s p : String) : Bool :=
  p.data.isPrefixOf s.data

/-- The string `s` without its first `n` characters. -/
def jsDropChars (s : String) (n : Nat) : String :=
  String.mk (s.data.drop n)

/-- JSON scalar values as they can appear in a request body field. -/
inductive JsValue where
  | str (s : String)
  | num (n : Int)
  | bool (b : Bool)
  | null
deriving Repr, DecidableEq

/-- JavaScript truthiness of a value: empty string, 0, false and null are
falsy; everything else here is truthy. -/
def JsValue.truthy : JsValue → Bool
  | JsValue.str s => !(s = "")
  | JsValue.num n => !(n = 0)
  | JsValue.bool b => b
  | JsValue.null => false

/-- Truthiness of a possibly absent body field (`undefined` is falsy). -/
def jsTruthy : Option JsValue → Bool
  | none => false
  | some v => v.truthy

/-- JavaScript `Number(x)` restricted to the scalars modelled here;
`none` stands for NaN (a non-numeric, non-empty string). -/
def JsValue.toNumber : JsValue → Option Int
  | JsValue.num n => some n
  | JsValue.bool b => some (if b then 1 else 0)
  | JsValue.null => some 0
  | JsValue.str s => if jsTrim s = "" then some 0 else (jsTrim s).toInt?

/-- Addition on numbers-or-NaN: NaN is absorbing, as in JavaScript /
BSON double arithmetic. -/
def addNum : Option Int → Option Int → Option Int
  | some a, some b => some (a + b)
  | _, _ => none

/-- Truthiness of a possibly absent string field. -/
def strTruthy : Option String → Bool
  | none => false
  | some s => !(s = "")

/-- The fixed administrator address the handlers compare `userEmail`
against with `!==`. -/
def adminEmail : String := "rijoanmaruf@gmail.com"

/-- `ObjectId.isValid` for the 24-character hex form (the form every
identifier in this API takes). -/
def isValidObjectId (s : String) : Bool :=
  s.length = 24 && s.toList.all (fun c =>
    c.isDigit || ('a' ≤ c && c ≤ 'f') || ('A' ≤ c && c ≤ 'F'))

/-- A document collection: an association list from key (ObjectId hex
string, or client IP for visitors) to document. -/
abbrev Store (α : Type) := List (String × α)

/-- `findOne` on the key: first matching document, if any. -/
def findRec {α : Type} (k : String) : Store α → Option α
  | [] => none
  | p :: t => if p.1 = k then some p.2 else findRec k t

/-- `updateOne` on the key: rewrite the first matching document with `f`;
no match means no change (no upsert). -/
def updateRec {α : Type} (k : String) (f : α → α) : Store α → Store α
  | [] => []
  | p :: t => if p.1 = k then (p.1, f p.2) :: t else p :: updateRec k f t

/-- `deleteOne` on the key: remove the first matching document, if any. -/
def eraseRec {α : Type} (k : String) : Store α → Store α
  | [] => []
  | p :: t => if p.1 = k then t else p :: eraseRec k t

/-- Outcome of a handler, tagged by the HTTP status it is sent with.
`badRequest` carries the handler's message so the two different 400
branches of a handler stay distinguishable. -/
inductive Outcome (α : Type) where
  | forbidden
  | invalidId
  | badRequest (msg : String)
  | notFound
  | created (a : α)
  | ok (a : α)
deriving Repr, DecidableEq

/-- The HTTP status code each outcome is sent with. -/
def Outcome.status {α : Type} : Outcome α → Nat
  | Outcome.forbidden => 403
  | Outcome.invalidId => 400
  | Outcome.badRequest _ => 400
  | Outcome.notFound => 404
  | Outcome.created _ => 201
  | Outcome.ok _ => 200

/-- A bare JSON response envelope (no `data` payload). -/
structure SimpleResp where
  status : Nat
  success : Bool
  message : Option String
  error : Option String
deriving Repr, DecidableEq

/-- Whether the storage operations inside a handler's try block succeed or
the promise rejects with an error message. -/
inductive DbOutcome where
  | ok
  | err (msg : String)
deriving Repr, DecidableEq

/-! ## Visitor tracking -/

/-- The parsed user agent fields the middleware reads. -/
structure UserAgent where
  browser : String
  version : String
  isMobile : Bool
  isTablet : Bool
  os : String
deriving Repr, DecidableEq

/-- A document of the `visitors` collection.  The key of the collection is
the client IP; `totalTimeSpent` is a number-or-NaN; `sessionStart = none`
models the field being absent (after `$unset`). -/
structure VisitorRec where
  browser : String
  device : String
  os : String
  firstVisit : Nat
  lastVisit : Nat
  visitCount : Nat
  totalTimeSpent : Option Int
  sessionStart : Option Nat
  path : String
deriving Repr, DecidableEq

/-- `req.clientIp || '127.0.0.1'`: the effective IP key. -/
def effIp (clientIp : Option String) : String :=
  match clientIp with
  | some s => if s = "" then "127.0.0.1" else s
  | none => "127.0.0.1"

/-- The device category string derived from the user agent. -/
def deviceOf (ua : UserAgent) : String :=
  if ua.isMobile then "Mobile" else if ua.isTablet then "Tablet" else "Desktop"

/-- The browser string `browser + " " + version`. -/
def browserOf (ua : UserAgent) : String :=
  ua.browser ++ " " ++ ua.version

/-- Result of the `trackVisitor` middleware: the visitors collection after
the middleware ran, whether `next()` was invoked (control passed to the
matched route), and the `visitorSessionId` cookie value it set, if any.
The middleware never writes a response of its own. -/
structure TrackResult where
  store : Store VisitorRec
  passedOn : Bool
  cookie : Option String
deriving Repr, DecidableEq

/-- The `trackVisitor` middleware.  Requests under `/api/` or `/admin` are
skipped before any storage access.  On a storage error the catch block only
logs, leaving the collection unchanged, and `next()` still runs after it. -/
def trackVisitor (now : Nat) (clientIp : Option String) (ua : UserAgent)
    (path : String) (db : DbOutcome) (store : Store VisitorRec) : TrackResult :=
  if jsStartsWith path "/api/" || jsStartsWith path "/admin" then
    { store := store, passedOn := true, cookie := none }
  else
    match db with
    | DbOutcome.err _ => { store := store, passedOn := true, cookie := none }
    | DbOutcome.ok =>
      let ip := effIp clientIp
      match findRec ip store with
      | some _ =>
        { store := updateRec ip (fun v =>
            { v with lastVisit := now, browser := browserOf ua,
                     device := deviceOf ua, os := ua.os,
                     sessionStart := some now,
                     visitCount := v.visitCount + 1 }) store,
          passedOn := true, cookie := some (toString now) }
      | none =>
        { store := (ip,
            { browser := browserOf ua, device := deviceOf ua, os := ua.os,
              firstVisit := now, lastVisit := now, visitCount := 1,
              totalTimeSpent := some 0, sessionStart := some now,
              path := path }) :: store,
          passedOn := true, cookie := some (toString now) }

/-- Body of `POST /api/track/end-session`. -/
structure EndSessionBody where
  sessionId : Option JsValue
  timeSpent : Option JsValue
deriving Repr, DecidableEq

/-- `Number(timeSpent)` on the raw body field (`Number(undefined)` is
NaN). -/
def numberOfField (timeSpent : Option JsValue) : Option Int :=
  match timeSpent with
  | some u => u.toNumber
  | none => none

/-- The update document of the flush endpoint:
`$inc: { totalTimeSpent: Number(timeSpent) }, $unset: { sessionStart }`. -/
def flushUpdate (timeSpent : Option JsValue) (v : VisitorRec) : VisitorRec :=
  { v with
    totalTimeSpent := addNum v.totalTimeSpent (numberOfField timeSpent)
    sessionStart := none }

/-- The `POST /api/track/end-session` handler (storage succeeding).
Validation is JavaScript truthiness of both fields; the update is
`$inc totalTimeSpent, $unset sessionStart` against the caller's IP with no
upsert, and the response is a bare success regardless of whether a
document matched. -/
def endSession (body : EndSessionBody) (clientIp : Option String)
    (store : Store VisitorRec) : SimpleResp × Store VisitorRec :=
  let ip := effIp clientIp
  if !jsTruthy body.sessionId || !jsTruthy body.timeSpent then
    ({ status := 400, success := false,
       message := some "Session ID and time spent are required",
       error := none }, store)
  else
    ({ status := 200, success := true, message := none, error := none },
     updateRec ip (flushUpdate body.timeSpent) store)

/-! ## Projects -/

/-- A document of the `projects` collection (the variant the spec's
validation and normalization rules are written from). -/
structure ProjectRec where
  title : String
  description : String
  image : String
  clientSourceCode : Option String
  serverSourceCode : Option String
  liveLink : Option String
  isFeatured : Bool
  tags : List String
  createdAt : Nat
  updatedAt : Nat
deriving Repr, DecidableEq

/-- The `tags` body field: absent, present but not an array
(`Array.isArray` false), or an array of strings. -/
inductive TagsInput where
  | missing
  | notArray (v : JsValue)
  | array (xs : List String)
deriving Repr, DecidableEq

/-- Body of `POST /api/projects` and `PUT /api/projects/:id`.  String
fields are absent or strings (a non-string value would make `.trim()`
throw, which no claim exercises). -/
structure ProjectBody where
  title : Option String
  description : Option String
  image : Option String
  clientSourceCode : Option String
  serverSourceCode : Option String
  liveLink : Option String
  isFeatured : Option JsValue
  tags : TagsInput
deriving Repr, DecidableEq

/-- `x ? x.trim() : null` for an optional string field. -/
def normOptStr : Option String → Option String
  | some s => if s = "" then none else some (jsTrim s)
  | none => none

/-- `Array.isArray(tags) ? tags.map(t => t.trim()) : []`. -/
def tagsOf : TagsInput → List String
  | TagsInput.array xs => xs.map jsTrim
  | _ => []

/-- `Boolean(x)` of a possibly absent value. -/
def boolOf (v : Option JsValue) : Bool := jsTruthy v

/-- The required-field check `!title || !description || !image`. -/
def reqFieldsMissing (b : ProjectBody) : Bool :=
  !strTruthy b.title || !strTruthy b.description || !strTruthy b.image

/-- The document built by the create handler from a body that passed the
required-field check. -/
def buildProject (now : Nat) (b : ProjectBody) : ProjectRec :=
  { title := jsTrim (b.title.getD "")
    description := jsTrim (b.description.getD "")
    image := jsTrim (b.image.getD "")
    clientSourceCode := normOptStr b.clientSourceCode
    serverSourceCode := normOptStr b.serverSourceCode
    liveLink := normOptStr b.liveLink
    isFeatured := boolOf b.isFeatured
    tags := tagsOf b.tags
    createdAt := now
    updatedAt := now }

/-- The `$set` document of the update handler: every body-derived field
plus `updatedAt`; `createdAt` is untouched. -/
def setProjectFields (now : Nat) (b : ProjectBody) (old : ProjectRec) : ProjectRec :=
  { old with
    title := jsTrim (b.title.getD "")
    description := jsTrim (b.description.getD "")
    image := jsTrim (b.image.getD "")
    clientSourceCode := normOptStr b.clientSourceCode
    serverSourceCode := normOptStr b.serverSourceCode
    liveLink := normOptStr b.liveLink
    isFeatured := boolOf b.isFeatured
    tags := tagsOf b.tags
    updatedAt := now }

/-- The `POST /api/projects` handler (storage succeeding); `newId` is the
identifier the storage engine assigns to the inserted document. -/
def postProject (now : Nat) (newId : String) (b : ProjectBody)
    (store : Store ProjectRec) : Outcome (String × ProjectRec) × Store ProjectRec :=
  if reqFieldsMissing b then
    (Outcome.badRequest "Required fields: title, description, image", store)
  else
    let p := buildProject now b
    (Outcome.created (newId, p), (newId, p) :: store)

/-- The `PUT /api/projects/:id` handler (storage succeeding): ObjectId
check, then required-field check, then `updateOne` (404 when
`matchedCount` is 0, nothing created), then a re-read `findOne` whose
result is returned as `data` without a null-check. -/
def putProject (now : Nat) (id : String) (b : ProjectBody)
    (store : Store ProjectRec) : Outcome (Option ProjectRec) × Store ProjectRec :=
  if !isValidObjectId id then (Outcome.invalidId, store)
  else if reqFieldsMissing b then
    (Outcome.badRequest "Required fields: title, description, image", store)
  else
    match findRec id store with
    | none => (Outcome.notFound, store)
    | some _ =>
      let store2 := updateRec id (setProjectFields now b) store
      (Outcome.ok (findRec id store2), store2)

/-- The `GET /api/projects` handler: the catch branch puts the raw
`error.message` into the envelope unconditionally — it never consults
`NODE_ENV`.  (`data`/`count` of the 200 branch are not modelled.) -/
def getProjects (db : DbOutcome) (_store : Store ProjectRec) : SimpleResp :=
  match db with
  | DbOutcome.ok =>
    { status := 200, success := true, message := none, error := none }
  | DbOutcome.err m =>
    { status := 500, success := false,
      message := some "Error fetching projects", error := some m }

/-- The final error-handling middleware: the only place the `error` detail
is gated, on `NODE_ENV === 'development'`. -/
def errorMiddleware (nodeEnv : Option String) (errMsg : String) : SimpleResp :=
  { status := 500, success := false,
    message := some "Something went wrong!",
    error := some (if nodeEnv = some "development" then errMsg
                   else "Internal server error") }

/-! ## Coursework -/

/-- A document of the `coursework` collection. -/
structure CourseworkRec where
  title : String
  status : String
  createdAt : Nat
  updatedAt : Nat
deriving Repr, DecidableEq

/-- Body of the coursework write handlers. -/
structure CwBody where
  title : Option String
  status : Option String
  userEmail : Option String
deriving Repr, DecidableEq

/-- The allowed coursework status values. -/
def validStatuses : List String := ["Completed", "Ongoing", "Upcoming"]

/-- `status && validStatuses.includes(status) ? status : 'Ongoing'`. -/
def courseStatusOf : Option String → String
  | some s => if !(s = "") && validStatuses.contains s then s else "Ongoing"
  | none => "Ongoing"

/-- The `POST /api/coursework` handler: admin gate first, then the title
check, then insert. -/
def postCoursework (now : Nat) (newId : String) (b : CwBody)
    (store : Store CourseworkRec) :
    Outcome (String × CourseworkRec) × Store CourseworkRec :=
  if b.userEmail ≠ some adminEmail then (Outcome.forbidden, store)
  else if !strTruthy b.title then
    (Outcome.badRequest "Title is required", store)
  else
    let c : CourseworkRec :=
      { title := jsTrim (b.title.getD ""), status := courseStatusOf b.status,
        createdAt := now, updatedAt := now }
    (Outcome.created (newId, c), (newId, c) :: store)

/-- The `PUT /api/coursework/:id` handler: admin gate, then ObjectId
check, then title check, then `updateOne` / re-read. -/
def putCoursework (now : Nat) (id : String) (b : CwBody)
    (store : Store CourseworkRec) :
    Outcome (Option CourseworkRec) × Store CourseworkRec :=
  if b.userEmail ≠ some adminEmail then (Outcome.forbidden, store)
  else if !isValidObjectId id then (Outcome.invalidId, store)
  else if !strTruthy b.title then
    (Outcome.badRequest "Title is required", store)
  else
    match findRec id store with
    | none => (Outcome.notFound, store)
    | some _ =>
      let store2 := updateRec id (fun old =>
        { old with title := jsTrim (b.title.getD ""),
                   status := courseStatusOf b.status, updatedAt := now }) store
      (Outcome.ok (findRec id store2), store2)

/-- The `DELETE /api/coursework/:id` handler: admin gate, then ObjectId
check, then `deleteOne` (404 when `deletedCount` is 0). -/
def deleteCoursework (id : String) (userEmail : Option String)
    (store : Store CourseworkRec) : Outcome Unit × Store CourseworkRec :=
  if userEmail ≠ some adminEmail then (Outcome.forbidden, store)
  else if !isValidObjectId id then (Outcome.invalidId, store)
  else
    match findRec id store with
    | none => (Outcome.notFound, store)
    | some _ => (Outcome.ok (), eraseRec id store)

/-! ## Contacts (admin-gated read and mutations) -/

/-- A document of the `contacts` collection. -/
structure ContactRec where
  name : String
  email : String
  message : String
  isRead : Bool
  createdAt : Nat
  updatedAt : Nat
deriving Repr, DecidableEq

/-- The `GET /api/contacts` handler: admin gate (query parameter), then
the collection listing (sort order not modelled).  Reads do not change the
store. -/
def getContacts (userEmail : Option String) (store : Store ContactRec) :
    Outcome (List (String × ContactRec)) :=
  if userEmail ≠ some adminEmail then Outcome.forbidden
  else Outcome.ok store

/-- The `PUT /api/contacts/:id/read` handler: admin gate, ObjectId check,
then `$set isRead: true, updatedAt`. -/
def markContactRead (now : Nat) (id : String) (userEmail : Option String)
    (store : Store ContactRec) : Outcome Unit × Store ContactRec :=
  if userEmail ≠ some adminEmail then (Outcome.forbidden, store)
  else if !isValidObjectId id then (Outcome.invalidId, store)
  else
    match findRec id store with
    | none => (Outcome.notFound, store)
    | some _ =>
      (Outcome.ok (),
       updateRec id (fun c => { c with isRead := true, updatedAt := now }) store)

/-- The `DELETE /api/contacts/:id` handler: admin gate, ObjectId check,
then `deleteOne`. -/
def deleteContact (id : String) (userEmail : Option String)
    (store : Store ContactRec) : Outcome Unit × Store ContactRec :=
  if userEmail ≠ some adminEmail then (Outcome.forbidden, store)
  else if !isValidObjectId id then (Outcome.invalidId, store)
  else
    match findRec id store with
    | none => (Outcome.notFound, store)
    | some _ => (Outcome.ok (), eraseRec id store)

/-- The `GET /api/visitors` handler: admin gate (query parameter), then
the collection listing (sort order not modelled). -/
def getVisitors (userEmail : Option String) (store : Store VisitorRec) :
    Outcome (List (String × VisitorRec)) :=
  if userEmail ≠ some adminEmail then Outcome.forbidden
  else Outcome.ok store

/-! ## Resume singleton -/

/-- The singleton `resume` document. -/
structure ResumeRec where
  link : String
  updatedAt : Nat
deriving Repr, DecidableEq

/-- Whether a character is matched by `.` in a JavaScript regex (any
character except a line terminator). -/
def jsDotMatches (c : Char) : Bool :=
  !(c = Char.ofNat 10) && !(c = Char.ofNat 13) &&
  !(c.val = 0x2028) && !(c.val = 0x2029)

/-- Whether `.` matches the first character of `s` (false when `s` is
empty). -/
def firstCharMatchesDot (s : String) : Bool :=
  match s.toList with
  | c :: _ => jsDotMatches c
  | [] => false

/-- The test of the source regex `^https?:\/\/.+` : the string starts with
`http://` or `https://` and at least one further character follows the
scheme. -/
def urlRegexTest (s : String) : Bool :=
  (jsStartsWith s "http://" && firstCharMatchesDot (jsDropChars s 7)) ||
  (jsStartsWith s "https://" && firstCharMatchesDot (jsDropChars s 8))

/-- The `PUT /api/resume` handler: admin gate, then the
`!link || link.trim() === ''` check, then the URL regex test on the
trimmed link, then `replaceOne({}, data, upsert: true)` on the singleton. -/
def putResume (now : Nat) (link : Option String) (userEmail : Option String)
    (store : Option ResumeRec) : Outcome ResumeRec × Option ResumeRec :=
  if userEmail ≠ some adminEmail then (Outcome.forbidden, store)
  else if !strTruthy link || jsTrim (link.getD "") = "" then
    (Outcome.badRequest "Resume link is required", store)
  else if !urlRegexTest (jsTrim (link.getD "")) then
    (Outcome.badRequest
      "Please provide a valid URL (must start with http:// or https://)", store)
  else
    let r : ResumeRec := { link := jsTrim (link.getD ""), updatedAt := now }
    (Outcome.ok r, some r)

/-! ## Sample values used by the witness theorems -/

/-- A desktop user agent. -/
def uaSample : UserAgent :=
  { browser := "Chrome", version := "120", isMobile := false,
    isTablet := false, os := "Linux" }

/-- A visitor document with an open session and 100 accumulated seconds. -/
def visitorSample : VisitorRec :=
  { browser := "Chrome 120", device := "Desktop", os := "Linux",
    firstVisit := 1, lastVisit := 2, visitCount := 3,
    totalTimeSpent := some 100, sessionStart := some 50, path := "/" }

/-- A well-formed 24-character hex ObjectId. -/
def oidSample : String := "aaaaaaaaaaaaaaaaaaaaaaaa"

/-- A stored project document. -/
def projSample : ProjectRec :=
  { title := "Old", description := "OldD", image := "OldI",
    clientSourceCode := none, serverSourceCode := none, liveLink := none,
    isFeatured := false, tags := [], createdAt := 1, updatedAt := 1 }

/-- A valid update body for a project. -/
def projBodySample : ProjectBody :=
  { title := some "New", description := some "D", image := some "I",
    clientSourceCode := none, serverSourceCode := none, liveLink := none,
    isFeatured := none, tags := TagsInput.missing }

/-- The create payload of the spec's normalization scenario. -/
def scenarioBody : ProjectBody :=
  { title := some "A", description := some "B", image := some "http://x/y.png",
    clientSourceCode := none, serverSourceCode := none, liveLink := none,
    isFeatured := none, tags := TagsInput.missing }

/-! ## Store lemmas -/

theorem findRec_updateRec_self {α : Type} (k : String) (f : α → α)
    (s : Store α) : findRec k (updateRec k f s) = (findRec k s).map f := by
  induction s with
  | nil => rfl
  | cons p t ih =>
    by_cases h : p.1 = k
    · simp [findRec, updateRec, h]
    · simp [findRec, updateRec, h, ih]

theorem updateRec_of_findRec_none {α : Type} (k : String) (f : α → α)
    (s : Store α) (h : findRec k s = none) : updateRec k f s = s := by
  induction s with
  | nil => rfl
  | cons p t ih =>
    by_cases hp : p.1 = k
    · simp [findRec, hp] at h
    · simp only [findRec, hp, if_false] at h
      simp [updateRec, hp, ih h]

/-! ## Claims -/

/-- C1: the visitor session state machine.  For a qualifying request (path
not under `/api/` and not under `/admin`) from an address with no existing
visitor record, a record is created with `firstVisit = lastVisit = now`,
`visitCount = 1`, `sessionStart = now`; for a qualifying request from an
address with an existing record, the update sets `lastVisit = now`,
increments `visitCount` by 1, resets `sessionStart` to `now` and leaves
`firstVisit` unchanged (the record literal below does not touch
`firstVisit` or `totalTimeSpent`); non-qualifying paths bypass tracking
entirely, for any storage outcome. -/
theorem C1_visitor_state_machine (now : Nat) (clientIp : Option String)
    (ua : UserAgent) (path : String) (store : Store VisitorRec) :
    (jsStartsWith path "/api/" = false → jsStartsWith path "/admin" = false →
      ((findRec (effIp clientIp) store = none →
        findRec (effIp clientIp)
            (trackVisitor now clientIp ua path DbOutcome.ok store).store =
          some { browser := browserOf ua, device := deviceOf ua, os := ua.os,
                 firstVisit := now, lastVisit := now, visitCount := 1,
                 totalTimeSpent := some 0, sessionStart := some now,
                 path := path }) ∧
       (∀ v, findRec (effIp clientIp) store = some v →
        findRec (effIp clientIp)
            (trackVisitor now clientIp ua path DbOutcome.ok store).store =
          some { v with lastVisit := now, browser := browserOf ua,
                        device := deviceOf ua, os := ua.os,
                        sessionStart := some now,
                        visitCount := v.visitCount + 1 }))) ∧
    (∀ db, (jsStartsWith path "/api/" = true ∨ jsStartsWith path "/admin" = true) →
      (trackVisitor now clientIp ua path db store).store = store) := by
  constructor
  · intro h1 h2
    constructor
    · intro hnone
      simp [trackVisitor, h1, h2, hnone, findRec]
    · intro v hv
      simp [trackVisitor, h1, h2, hv, findRec_updateRec_self]
  · intro db hor
    rcases hor with h | h <;> cases db <;> simp [trackVisitor, h]

/-- C1 witness: a first hit on `/` from `1.2.3.4` creates the expected
record. -/
theorem C1_visitor_state_machine_witness :
    (jsStartsWith "/" "/api/" = false) ∧ (jsStartsWith "/" "/admin" = false) ∧
    findRec "1.2.3.4"
        (trackVisitor 10 (some "1.2.3.4") uaSample "/" DbOutcome.ok []).store =
      some { browser := "Chrome 120", device := "Desktop", os := "Linux",
             firstVisit := 10, lastVisit := 10, visitCount := 1,
             totalTimeSpent := some 0, sessionStart := some 10, path := "/" } := by
  refine ⟨by decide, by decide, ?_⟩
  have h := ((C1_visitor_state_machine 10 (some "1.2.3.4") uaSample "/" []).1
    (by decide) (by decide)).1 rfl
  simpa [browserOf, deviceOf, uaSample] using h

/-- C2 counterexample: a body carrying both fields, with `timeSpent = 0`
(present, hence not missing), is still answered with 400 — the handler
validates with JavaScript truthiness, not presence, so the claimed
"400 if and only if missing" fails. -/
theorem C2_zero_time_present_counterexample :
    (some (JsValue.num 0) ≠ (none : Option JsValue)) ∧
    (endSession { sessionId := some (JsValue.str "s"),
                  timeSpent := some (JsValue.num 0) } (some "1.2.3.4")
        []).1.status = 400 := by
  exact ⟨by decide, by decide⟩

/-- Reduction of the flush handler when both body fields are truthy. -/
theorem endSession_truthy (body : EndSessionBody) (clientIp : Option String)
    (store : Store VisitorRec) (hs : jsTruthy body.sessionId = true)
    (ht : jsTruthy body.timeSpent = true) :
    endSession body clientIp store =
      ({ status := 200, success := true, message := none, error := none },
       updateRec (effIp clientIp) (flushUpdate body.timeSpent) store) := by
  unfold endSession
  rw [hs, ht]
  simp

/-- C2 (amended): the response is 400 iff the session identifier or the
elapsed value is missing or otherwise falsy (empty string, zero, false,
null); otherwise — in particular for any non-zero numeric `timeSpent t`
alongside a truthy `sessionId` — the response is the bare success envelope
and the visitor record matching the caller's address has `totalTimeSpent`
increased by exactly `t` and `sessionStart` cleared. -/
theorem C2_flush_contract (body : EndSessionBody) (clientIp : Option String)
    (store : Store VisitorRec) :
    ((endSession body clientIp store).1.status = 400 ↔
      (jsTruthy body.sessionId = false ∨ jsTruthy body.timeSpent = false)) ∧
    (∀ t : Int, body.timeSpent = some (JsValue.num t) → t ≠ 0 →
      jsTruthy body.sessionId = true →
      ((endSession body clientIp store).1 =
        { status := 200, success := true, message := none, error := none } ∧
       (∀ v a, findRec (effIp clientIp) store = some v →
         v.totalTimeSpent = some a →
         findRec (effIp clientIp) (endSession body clientIp store).2 =
           some { v with totalTimeSpent := some (a + t),
                         sessionStart := none }))) := by
  constructor
  · cases hs : jsTruthy body.sessionId with
    | false => simp [endSession, hs]
    | true =>
      cases ht : jsTruthy body.timeSpent with
      | false => simp [endSession, hs, ht]
      | true => simp [endSession, hs, ht]
  · intro t hteq htne hs
    have ht : jsTruthy body.timeSpent = true := by
      simp [jsTruthy, hteq, JsValue.truthy, htne]
    have hred := endSession_truthy body clientIp store hs ht
    constructor
    · rw [hred]
    · intro v a hv ha
      rw [hred]
      simp only [findRec_updateRec_self, hv, Option.map_some']
      simp [flushUpdate, numberOfField, hteq, JsValue.toNumber, addNum, ha]

/-- C2 witness: flushing 45 seconds for a known address succeeds and adds
exactly 45 to the 100 already accumulated, clearing `sessionStart`. -/
theorem C2_flush_contract_witness :
    (endSession { sessionId := some (JsValue.str "s"),
                  timeSpent := some (JsValue.num 45) } (some "1.2.3.4")
        [("1.2.3.4", visitorSample)]).1 =
      { status := 200, success := true, message := none, error := none } ∧
    findRec "1.2.3.4"
        (endSession { sessionId := some (JsValue.str "s"),
                      timeSpent := some (JsValue.num 45) } (some "1.2.3.4")
          [("1.2.3.4", visitorSample)]).2 =
      some { visitorSample with totalTimeSpent := some (100 + 45),
                                sessionStart := none } := by
  have h := (C2_flush_contract
    { sessionId := some (JsValue.str "s"), timeSpent := some (JsValue.num 45) }
    (some "1.2.3.4") [("1.2.3.4", visitorSample)]).2 45 rfl (by decide)
    (by decide)
  exact ⟨h.1, h.2 visitorSample 100 rfl rfl⟩

/-- C3 counterexample: a title consisting only of whitespace is truthy, so
`POST /api/projects` with title `" "` passes the `!title` validation and a
record with an empty (trimmed) title is inserted with 201, where the claim
demands a 400 and no insertion. -/
theorem C3_whitespace_title_counterexample :
    postProject 0 "aaaaaaaaaaaaaaaaaaaaaaaa"
        { title := some " ", description := some "B", image := some "C",
          clientSourceCode := none, serverSourceCode := none, liveLink := none,
          isFeatured := none, tags := TagsInput.missing } [] =
      (Outcome.created ("aaaaaaaaaaaaaaaaaaaaaaaa",
         { title := "", description := "B", image := "C",
           clientSourceCode := none, serverSourceCode := none, liveLink := none,
           isFeatured := false, tags := [], createdAt := 0, updatedAt := 0 }),
       [("aaaaaaaaaaaaaaaaaaaaaaaa",
         { title := "", description := "B", image := "C",
           clientSourceCode := none, serverSourceCode := none, liveLink := none,
           isFeatured := false, tags := [], createdAt := 0, updatedAt := 0 })]) := by
  decide

/-- C3 (amended): for `POST /api/projects` and (given a well-formed
identifier) `PUT /api/projects/:id`, a required string field that is
absent or is the empty string yields a 400 and leaves the collection
unchanged; whitespace-only strings, being truthy, pass validation and
are stored trimmed. -/
theorem C3_required_field_validation (now : Nat) (newId id : String)
    (b : ProjectBody) (store : Store ProjectRec)
    (h : b.title = none ∨ b.title = some "" ∨ b.description = none ∨
         b.description = some "" ∨ b.image = none ∨ b.image = some "") :
    postProject now newId b store =
      (Outcome.badRequest "Required fields: title, description, image",
       store) ∧
    (isValidObjectId id = true →
      putProject now id b store =
        (Outcome.badRequest "Required fields: title, description, image",
         store)) := by
  have hm : reqFieldsMissing b = true := by
    rcases h with h | h | h | h | h | h <;> simp [reqFieldsMissing, strTruthy, h]
  constructor
  · simp [postProject, hm]
  · intro hid
    simp [putProject, hid, hm]

/-- C3 witness: a create request with no title is rejected with 400 and
the (empty) collection is unchanged. -/
theorem C3_required_field_validation_witness :
    postProject 7 "e"
        { title := none, description := some "B", image := some "C",
          clientSourceCode := none, serverSourceCode := none, liveLink := none,
          isFeatured := none, tags := TagsInput.missing } [] =
      (Outcome.badRequest "Required fields: title, description, image",
       []) :=
  (C3_required_field_validation 7 "e" "aaaaaaaaaaaaaaaaaaaaaaaa"
    { title := none, description := some "B", image := some "C",
      clientSourceCode := none, serverSourceCode := none, liveLink := none,
      isFeatured := none, tags := TagsInput.missing } [] (Or.inl rfl)).1

/-- C4 counterexample: the catch branch of `GET /api/projects` returns the
raw error message in the 500 envelope unconditionally — the handler never
consults `NODE_ENV`, so the internal error text is not suppressed in a
production configuration, contrary to the claim. -/
theorem C4_route_error_detail_counterexample :
    (getProjects (DbOutcome.err "boom") []).status = 500 ∧
    (getProjects (DbOutcome.err "boom") []).error = some "boom" := by
  exact ⟨rfl, rfl⟩

/-- C4 (amended): only the final error-handling middleware gates the raw
error detail, on `NODE_ENV === 'development'` — in any other configuration
(production included) it replaces the detail with the fixed string
"Internal server error" — while route-level catch branches such as
`GET /api/projects` always put the raw error message into their 500
envelope. -/
theorem C4_error_detail_policy (nodeEnv : Option String) (m : String)
    (store : Store ProjectRec) (h : nodeEnv ≠ some "development") :
    (errorMiddleware nodeEnv m).error = some "Internal server error" ∧
    (getProjects (DbOutcome.err m) store).error = some m := by
  constructor
  · simp [errorMiddleware, h]
  · simp [getProjects]

/-- C4 witness: with `NODE_ENV = "production"` the middleware suppresses
the detail and the route handler does not. -/
theorem C4_error_detail_policy_witness :
    ((some "production" : Option String) ≠ some "development") ∧
    (errorMiddleware (some "production") "boom").error =
      some "Internal server error" ∧
    (getProjects (DbOutcome.err "boom") []).error = some "boom" := by
  refine ⟨by decide, ?_, ?_⟩
  · exact (C4_error_detail_policy (some "production") "boom" [] (by decide)).1
  · exact (C4_error_detail_policy (some "production") "boom" [] (by decide)).2

/-- C5: the admin gate.  On every admin-gated endpoint (coursework create,
update and delete, contact listing, mark-read and delete, resume-link
write, visitor listing) a `userEmail` that is not exactly the fixed
administrator address yields 403 with the store unchanged, and the 403 is
produced before any other validation: the identifier `id` and the body
fields are universally quantified, so the outcome is 403 even for a
malformed identifier or an invalid body. -/
theorem C5_admin_gate (now : Nat) (newId id : String) (email : Option String)
    (title cstatus link : Option String) (cw : Store CourseworkRec)
    (cs : Store ContactRec) (vs : Store VisitorRec) (rs : Option ResumeRec)
    (h : email ≠ some adminEmail) :
    postCoursework now newId
        { title := title, status := cstatus, userEmail := email } cw =
      (Outcome.forbidden, cw) ∧
    putCoursework now id
        { title := title, status := cstatus, userEmail := email } cw =
      (Outcome.forbidden, cw) ∧
    deleteCoursework id email cw = (Outcome.forbidden, cw) ∧
    getContacts email cs = Outcome.forbidden ∧
    markContactRead now id email cs = (Outcome.forbidden, cs) ∧
    deleteContact id email cs = (Outcome.forbidden, cs) ∧
    putResume now link email rs = (Outcome.forbidden, rs) ∧
    getVisitors email vs = Outcome.forbidden := by
  refine ⟨?_, ?_, ?_, ?_, ?_, ?_, ?_, ?_⟩ <;>
    simp [postCoursework, putCoursework, deleteCoursework, getContacts,
          markContactRead, deleteContact, putResume, getVisitors, h]

/-- C5 witness: a non-admin caller with a malformed identifier still gets
403 (not 400), and the collection is untouched. -/
theorem C5_admin_gate_witness :
    ((some "intruder@example.com" : Option String) ≠ some adminEmail) ∧
    isValidObjectId "zzz" = false ∧
    putCoursework 3 "zzz"
        { title := none, status := none,
          userEmail := some "intruder@example.com" } [] =
      (Outcome.forbidden, []) := by
  refine ⟨by decide, by decide, ?_⟩
  exact (C5_admin_gate 3 "n" "zzz" (some "intruder@example.com") none none
    none [] [] [] none (by decide)).2.1

/-- C6: the update contract of `PUT /api/projects/:id`.  Outcomes in
order: 400 when the identifier is not a well-formed ObjectId; else 400
when the body fails the required-field validation; else 404 when no record
matches the identifier, with the store unchanged (no upsert); else the
`$set` document is persisted, the record is re-read, and the re-read
record is returned with 200. -/
theorem C6_update_contract (now : Nat) (id : String) (b : ProjectBody)
    (store : Store ProjectRec) :
    (isValidObjectId id = false →
      putProject now id b store = (Outcome.invalidId, store)) ∧
    (isValidObjectId id = true → reqFieldsMissing b = true →
      putProject now id b store =
        (Outcome.badRequest "Required fields: title, description, image",
         store)) ∧
    (isValidObjectId id = true → reqFieldsMissing b = false →
      findRec id store = none →
      putProject now id b store = (Outcome.notFound, store)) ∧
    (∀ old, isValidObjectId id = true → reqFieldsMissing b = false →
      findRec id store = some old →
      putProject now id b store =
        (Outcome.ok (some (setProjectFields now b old)),
         updateRec id (setProjectFields now b) store) ∧
      findRec id (putProject now id b store).2 =
        some (setProjectFields now b old)) := by
  refine ⟨?_, ?_, ?_, ?_⟩
  · intro h
    simp [putProject, h]
  · intro h hm
    simp [putProject, h, hm]
  · intro h hm hn
    simp [putProject, h, hm, hn]
  · intro old h hm hv
    have hf : findRec id (updateRec id (setProjectFields now b) store) =
        some (setProjectFields now b old) := by
      rw [findRec_updateRec_self, hv]
      rfl
    constructor
    · simp [putProject, h, hm, hv, hf]
    · simp [putProject, h, hm, hv, hf]

/-- C6 witness: updating an existing record persists the `$set` document
and returns the re-read record. -/
theorem C6_update_contract_witness :
    isValidObjectId oidSample = true ∧
    reqFieldsMissing projBodySample = false ∧
    putProject 9 oidSample projBodySample [(oidSample, projSample)] =
      (Outcome.ok (some (setProjectFields 9 projBodySample projSample)),
       updateRec oidSample (setProjectFields 9 projBodySample)
         [(oidSample, projSample)]) := by
  refine ⟨by decide, by decide, ?_⟩
  exact ((C6_update_contract 9 oidSample projBodySample
    [(oidSample, projSample)]).2.2.2 projSample (by decide) (by decide)
    rfl).1

/-- C7: create normalization.  A valid `POST /api/projects` payload yields
201 with the stored record; the record's required string fields are the
trimmed inputs, optional string fields absent from the input are stored as
`null`, an absent or non-array `tags` is stored as `[]`, and an absent
`isFeatured` is stored as `false`. -/
theorem C7_create_normalization (now : Nat) (newId : String) (b : ProjectBody)
    (store : Store ProjectRec) (ht : strTruthy b.title = true)
    (hd : strTruthy b.description = true) (hi : strTruthy b.image = true) :
    postProject now newId b store =
      (Outcome.created (newId, buildProject now b),
       (newId, buildProject now b) :: store) ∧
    (∀ s, b.title = some s → (buildProject now b).title = jsTrim s) ∧
    (∀ s, b.description = some s →
      (buildProject now b).description = jsTrim s) ∧
    (∀ s, b.image = some s → (buildProject now b).image = jsTrim s) ∧
    (b.clientSourceCode = none →
      (buildProject now b).clientSourceCode = none) ∧
    (b.serverSourceCode = none →
      (buildProject now b).serverSourceCode = none) ∧
    (b.liveLink = none → (buildProject now b).liveLink = none) ∧
    (b.isFeatured = none → (buildProject now b).isFeatured = false) ∧
    ((∀ xs, b.tags ≠ TagsInput.array xs) → (buildProject now b).tags = []) := by
  have hm : reqFieldsMissing b = false := by
    simp [reqFieldsMissing, ht, hd, hi]
  refine ⟨by simp [postProject, hm], ?_, ?_, ?_, ?_, ?_, ?_, ?_, ?_⟩
  · intro s hs
    simp [buildProject, hs]
  · intro s hs
    simp [buildProject, hs]
  · intro s hs
    simp [buildProject, hs]
  · intro hc
    simp [buildProject, normOptStr, hc]
  · intro hc
    simp [buildProject, normOptStr, hc]
  · intro hc
    simp [buildProject, normOptStr, hc]
  · intro hc
    simp [buildProject, boolOf, jsTruthy, hc]
  · intro hx
    cases htags : b.tags with
    | missing => simp [buildProject, tagsOf, htags]
    | notArray v => simp [buildProject, tagsOf, htags]
    | array xs => exact absurd htags (hx xs)

/-- C7 witness: the spec's scenario — `{title:"A", description:"B",
image:"http://x/y.png"}` — creates a record with `isFeatured = false`,
`tags = []` and `clientSourceCode = null`. -/
theorem C7_create_normalization_witness :
    strTruthy scenarioBody.title = true ∧
    (postProject 5 "pid" scenarioBody []).1 =
      Outcome.created ("pid", buildProject 5 scenarioBody) ∧
    (buildProject 5 scenarioBody).isFeatured = false ∧
    (buildProject 5 scenarioBody).tags = [] ∧
    (buildProject 5 scenarioBody).clientSourceCode = none := by
  have h := C7_create_normalization 5 "pid" scenarioBody [] (by decide)
    (by decide) (by decide)
  refine ⟨by decide, ?_, ?_, ?_, ?_⟩
  · rw [h.1]
  · exact h.2.2.2.2.2.2.2.1 rfl
  · refine h.2.2.2.2.2.2.2.2 ?_
    intro xs hxs
    simp [scenarioBody] at hxs
  · exact h.2.2.2.2.1 rfl

/-- C8 counterexample: the link `"http://"` starts with `http://`, yet the
source regex `^https?:\/\/.+` demands at least one character after the
scheme, so the handler answers 400 and leaves the singleton unset —
against the claim that any link starting with the scheme is upserted. -/
theorem C8_scheme_only_link_counterexample :
    jsStartsWith (jsTrim "http://") "http://" = true ∧
    putResume 5 (some "http://") (some adminEmail) none =
      (Outcome.badRequest
        "Please provide a valid URL (must start with http:// or https://)",
       none) := by
  exact ⟨by decide, by decide⟩

/-- C8 (amended): for an administrator request, the response is 400 with
the singleton unmodified unless the trimmed link starts with `http://` or
`https://` followed by at least one further character (the regex
`^https?:\/\/.+`); when it does, the singleton is replaced (created when
absent) by the trimmed link with the new timestamp and the response is a
success envelope. -/
theorem C8_resume_link_validation (now : Nat) (link : Option String)
    (rs : Option ResumeRec) :
    (link = none →
      putResume now link (some adminEmail) rs =
        (Outcome.badRequest "Resume link is required", rs)) ∧
    (∀ s, link = some s → urlRegexTest (jsTrim s) = false →
      (∃ m, putResume now link (some adminEmail) rs =
        (Outcome.badRequest m, rs))) ∧
    (∀ s, link = some s → urlRegexTest (jsTrim s) = true →
      putResume now link (some adminEmail) rs =
        (Outcome.ok { link := jsTrim s, updatedAt := now },
         some { link := jsTrim s, updatedAt := now })) := by
  refine ⟨?_, ?_, ?_⟩
  · intro h
    simp [putResume, h, strTruthy]
  · intro s hs hreg
    by_cases h1 : s = ""
    · exact ⟨"Resume link is required",
        by simp [putResume, hs, h1, strTruthy]⟩
    · by_cases h2 : jsTrim s = ""
      · exact ⟨"Resume link is required",
          by simp [putResume, hs, h1, h2, strTruthy]⟩
      · exact ⟨"Please provide a valid URL (must start with http:// or https://)",
          by simp [putResume, hs, h1, h2, strTruthy, hreg]⟩
  · intro s hs hreg
    have htrim : ¬jsTrim s = "" := by
      intro hcon
      rw [hcon] at hreg
      exact absurd hreg (by decide)
    have hses : ¬s = "" := by
      intro hcon
      apply htrim
      rw [hcon]
      rfl
    simp [putResume, hs, hses, htrim, strTruthy, hreg]

/-- C8 witness: a well-formed https link upserts the singleton. -/
theorem C8_resume_link_validation_witness :
    urlRegexTest (jsTrim "https://cv.example.com/x.pdf") = true ∧
    putResume 6 (some "https://cv.example.com/x.pdf") (some adminEmail)
        none =
      (Outcome.ok { link := jsTrim "https://cv.example.com/x.pdf",
                    updatedAt := 6 },
       some { link := jsTrim "https://cv.example.com/x.pdf",
              updatedAt := 6 }) := by
  refine ⟨by decide, ?_⟩
  exact (C8_resume_link_validation 6 (some "https://cv.example.com/x.pdf")
    none).2.2 "https://cv.example.com/x.pdf" rfl (by decide)

/-- C9 counterexample: a flush carrying both a session identifier and a
present (but zero, hence falsy) `timeSpent`, from an address with no
visitor record, is answered 400 rather than the claimed success
envelope. -/
theorem C9_zero_time_unknown_address_counterexample :
    endSession { sessionId := some (JsValue.str "s"),
                 timeSpent := some (JsValue.num 0) } (some "9.9.9.9") [] =
      ({ status := 400, success := false,
         message := some "Session ID and time spent are required",
         error := none }, []) := by
  decide

/-- C9 (amended): a flush whose `sessionId` and `timeSpent` are both
truthy, sent from an address with no visitor record, is a silent no-op:
the response is the bare success envelope and the visitors collection is
unchanged (`updateOne` without upsert matches nothing). -/
theorem C9_unknown_address_flush_noop (body : EndSessionBody)
    (clientIp : Option String) (store : Store VisitorRec)
    (hs : jsTruthy body.sessionId = true) (ht : jsTruthy body.timeSpent = true)
    (hn : findRec (effIp clientIp) store = none) :
    endSession body clientIp store =
      ({ status := 200, success := true, message := none, error := none },
       store) := by
  rw [endSession_truthy body clientIp store hs ht,
      updateRec_of_findRec_none _ _ _ hn]

/-- C9 witness: flushing 45 seconds from an unknown address succeeds and
creates nothing. -/
theorem C9_unknown_address_flush_noop_witness :
    jsTruthy (some (JsValue.str "s")) = true ∧
    jsTruthy (some (JsValue.num 45)) = true ∧
    endSession { sessionId := some (JsValue.str "s"),
                 timeSpent := some (JsValue.num 45) } (some "8.8.8.8") [] =
      ({ status := 200, success := true, message := none, error := none },
       []) := by
  refine ⟨by decide, by decide, ?_⟩
  exact C9_unknown_address_flush_noop
    { sessionId := some (JsValue.str "s"),
      timeSpent := some (JsValue.num 45) } (some "8.8.8.8") [] (by decide)
    (by decide) rfl

/-- C10: a tracking failure never fails the request.  For any path and any
storage error inside the middleware, the catch block swallows the error:
`next()` is still invoked (control passes to the matched route, which sees
the identical request, so the response it produces is the same as on the
success path), no cookie is set, and the visitors collection is unchanged;
on the success path `next()` is invoked as well.  The middleware never
writes a response of its own (`TrackResult` carries none). -/
theorem C10_tracking_failure_isolated (now : Nat) (clientIp : Option String)
    (ua : UserAgent) (path : String) (m : String) (store : Store VisitorRec) :
    (trackVisitor now clientIp ua path (DbOutcome.err m) store).passedOn =
      true ∧
    (trackVisitor now clientIp ua path (DbOutcome.err m) store).store =
      store ∧
    (trackVisitor now clientIp ua path (DbOutcome.err m) store).cookie =
      none ∧
    (trackVisitor now clientIp ua path DbOutcome.ok store).passedOn = true := by
  have herr : trackVisitor now clientIp ua path (DbOutcome.err m) store =
      { store := store, passedOn := true, cookie := none } := by
    cases h : (jsStartsWith path "/api/" || jsStartsWith path "/admin") with
    | true => simp [trackVisitor, h]
    | false => simp [trackVisitor, h]
  refine ⟨by rw [herr], by rw [herr], by rw [herr], ?_⟩
  cases h : (jsStartsWith path "/api/" || jsStartsWith path "/admin") with
  | true => simp [trackVisitor, h]
  | false =>
    cases hf : findRec (effIp clientIp) store <;> simp [trackVisitor, h, hf]

end Portfolio
